import Mathlib

/-!
Shallow embedding of the file-slot state machine of the firefox-session-ui
repository (`src-tauri/host_commands/src/host.rs` and the shared type
declarations in `src-tauri/host_commands/src/lib.rs`).

Modelling conventions:
* `PathId` / `DataId` are `u64` newtypes in the source whose only operations
  are equality, `null()` (the value `0`) and `new()` (a process-wide atomic
  counter starting at `1`, incremented with `fetch_add`).  The model threads
  the two counters explicitly through the state (`Store.nextPathId`,
  `Store.nextDataId`); overflow of the `u64` counter is not reachable in any
  modelled execution, so identifiers are plain `Nat`.
* `Vec<u8>` byte buffers are `List Nat`.
* The externally defined parsed session store
  (`firefox_session_data::session_store::FirefoxSessionStore`) is opaque to
  the command layer; it is modelled as a wrapper around an uninterpreted
  payload.
* Commands run one at a time under the single `Mutex<UiState>`; the model is
  the sequential semantics of one command execution, with the external
  effects (filesystem read, lz4 codec, JSON parser) passed in as function
  parameters returning the same `Result` shapes the source observes.
* Fallible commands return `Except String α × Store`: the pair of the
  returned `Result` and the post-state, so that "state unchanged on error"
  is directly statable.
-/

namespace FirefoxSessionUi

/-- Byte buffers (`Vec<u8>` / `Arc<[u8]>` in the source). -/
abbrev Bytes := List Nat

/-- Opaque stand-in for the externally defined parsed session store
(`Arc<FirefoxSessionStore>` in the source).  The command layer never
inspects it, only stores and clones it. -/
structure Session where
  payload : List Nat
deriving DecidableEq, Repr

/-- Mirrors `enum FileSlot { New, Current }` from `lib.rs`. -/
inductive FileSlot where
  | New
  | Current
deriving DecidableEq, Repr

/-- Mirrors `enum FileStatus` from `lib.rs`. -/
inductive FileStatus where
  | Empty
  | Found
  | Compressed
  | Uncompressed
  | Parsed
deriving DecidableEq, Repr

/-- Mirrors `struct FileState` from `host.rs` (identifiers as `Nat`,
see the header comment). -/
structure FileState where
  path_id : Nat
  data_id : Nat
  file_path : Option String
  is_compressed : Bool
  data : Option Bytes
  session : Option Session
deriving DecidableEq, Repr

/-- Mirrors `impl Default for FileState`: null ids, no path, no data,
no session, `is_compressed: true`. -/
def FileState.default : FileState :=
  { path_id := 0
    data_id := 0
    file_path := none
    is_compressed := true
    data := none
    session := none }

/-- Mirrors `struct FileInfo` from `lib.rs`. -/
structure FileInfo where
  path_id : Nat
  data_id : Nat
  status : FileStatus
  file_path : Option String
deriving DecidableEq, Repr

/-- Mirrors `FileState::to_info` from `host.rs`: the status is derived with
the precedence Parsed, then Compressed/Uncompressed, then Found, then
Empty. -/
def FileState.to_info (f : FileState) : FileInfo :=
  { path_id := f.path_id
    data_id := f.data_id
    status :=
      if f.session.isSome then .Parsed
      else if f.data.isSome then
        (if f.is_compressed then .Compressed else .Uncompressed)
      else if f.file_path.isSome then .Found
      else .Empty
    file_path := f.file_path }

/-- Derived status of a record (the `status` field computed by `to_info`). -/
def FileState.status (f : FileState) : FileStatus :=
  f.to_info.status

/-- Mirrors `struct UiState` from `host.rs` (the wasm-only
`handle_saved_data` callback is out of scope).  `save_path` is kept as a
plain string. -/
structure UiState where
  current_file : FileState
  new_file : FileState
  save_path : Option String
deriving DecidableEq, Repr

/-- Mirrors `UiState::get_file_mut`: direct slot access. -/
def UiState.get_file (u : UiState) (slot : FileSlot) : FileState :=
  match slot with
  | .New => u.new_file
  | .Current => u.current_file

/-- Functional update of one slot (the effect of writing through the `&mut`
reference returned by `get_file_mut` and the lookups). -/
def UiState.set_file (u : UiState) (slot : FileSlot) (f : FileState) : UiState :=
  match slot with
  | .New => { u with new_file := f }
  | .Current => { u with current_file := f }

/-- Mirrors `UiState::get_file_for_path_id`: the Current record is compared
first, then the New record; there is no special case for the null id.  The
model returns which slot matched (the source returns the `&mut FileState`
of that slot). -/
def UiState.get_file_for_path_id (u : UiState) (id : Nat) : Option FileSlot :=
  if u.current_file.path_id = id then some .Current
  else if u.new_file.path_id = id then some .New
  else none

/-- Mirrors `UiState::get_file_for_data_id`: same scan keyed on `data_id`. -/
def UiState.get_file_for_data_id (u : UiState) (id : Nat) : Option FileSlot :=
  if u.current_file.data_id = id then some .Current
  else if u.new_file.data_id = id then some .New
  else none

/-- Whole-state of the model: the `UiState` behind the mutex together with
the two process-wide atomic allocator counters (`PathId::new` /
`DataId::new`, both starting at `1`). -/
structure Store where
  ui : UiState
  nextPathId : Nat
  nextDataId : Nat
deriving DecidableEq, Repr

/-- Mirrors `PathId::new()`: returns the counter value and bumps it. -/
def allocPathId (s : Store) : Nat × Store :=
  (s.nextPathId, { s with nextPathId := s.nextPathId + 1 })

/-- Mirrors `DataId::new()`: returns the counter value and bumps it. -/
def allocDataId (s : Store) : Nat × Store :=
  (s.nextDataId, { s with nextDataId := s.nextDataId + 1 })

/-- State at process start: both records default (`UiState::default`), both
allocator counters at `1`.  The source initialises `save_path` from an
environment variable; the model starts it at `none` (no claim depends on
its initial value). -/
def initialStore : Store :=
  { ui :=
      { current_file := FileState.default
        new_file := FileState.default
        save_path := none }
    nextPathId := 1
    nextDataId := 1 }

/-! Path-extension inference, mirroring
`path.extension().and_then(|ext| ext.to_str().map(|v| v.ends_with("lz4"))).unwrap_or(false)`
from `set_data` / `load_data`.  The model fixes the Unix/wasm targets'
`std::path` semantics, where `/` is the only separator (on Windows builds
`\` and drive/verbatim prefixes additionally act as separators, which
changes only which concrete strings denote which files, not the command
logic).  Rust `Path::file_name` is the last *normalised* component:
repeated and trailing separators and `.` components are ignored, and the
result is `None` for an empty path, a bare root, or a path ending in `..`.
`Path::extension` then splits that name at its last `.`: no name, no dot,
or a dot only at position 0 (a hidden file like `.gitignore`) give `None`;
otherwise the extension is everything after the last dot (possibly the
empty string, as for `"a."`). -/

/-- Splits a character list at every `/`, keeping empty pieces (so
`"a//b/"` gives `["a", "", "b", ""]`). -/
def splitSlash (l : List Char) : List (List Char) :=
  match l with
  | [] => [[]]
  | c :: rest =>
    match splitSlash rest with
    | [] => [[]]
    | h :: t => if c = '/' then [] :: h :: t else (c :: h) :: t

/-- Mirrors Rust `Path::file_name` (Unix/wasm semantics): the last
component after dropping empty and `.` components; `none` when no
component remains or the last one is `..`. -/
def fileName (p : String) : Option (List Char) :=
  let comps := (splitSlash p.toList).filter (fun c => !(c.isEmpty || c == ['.']))
  match comps.getLast? with
  | none => none
  | some n => if n = ['.', '.'] then none else some n

/-- Mirrors Rust `Path::extension`: `none` when there is no file name, the
name holds no dot, or only a leading dot; else the part after the last
dot. -/
def fileExtension (p : String) : Option String :=
  match fileName p with
  | none => none
  | some name =>
    let extRev := name.reverse.takeWhile (fun c => c != '.')
    if extRev.length = name.length then none
    else if name.length = extRev.length + 1 then none
    else some (String.mk extRev.reverse)

/-- Mirrors Rust `str::ends_with` on literal suffixes. -/
def strEndsWith (s suffixStr : String) : Bool :=
  suffixStr.toList.isSuffixOf s.toList

/-- The compressed-flag inference of `set_data` / `load_data`: the path has
an extension and that extension ends with `"lz4"`. -/
def isLz4Path (path : String) : Bool :=
  match fileExtension path with
  | some ext => strEndsWith ext "lz4"
  | none => false

/-! The commands of `impl FileManagementCommands for HostCommands`. -/

/-- Mirrors `get_info_for_path_id`. -/
def get_info_for_path_id (u : UiState) (id : Nat) : Option FileInfo :=
  match u.get_file_for_path_id id with
  | some slot => some (u.get_file slot).to_info
  | none => none

/-- Mirrors `get_info_for_data_id`. -/
def get_info_for_data_id (u : UiState) (id : Nat) : Option FileInfo :=
  match u.get_file_for_data_id id with
  | some slot => some (u.get_file slot).to_info
  | none => none

/-- Mirrors `set_open_path`: reset the addressed slot to default, allocate a
fresh path id, store the path; returns the fresh id. -/
def set_open_path (slot : FileSlot) (file_path : String) (s : Store) : Nat × Store :=
  let (id, s') := allocPathId s
  (id,
    { s' with
      ui := s'.ui.set_file slot
        { FileState.default with path_id := id, file_path := some file_path } })

/-- Mirrors `set_data`.  The source looks the path id up twice inside the
same critical section (a borrow-checker artifact); both lookups read the
same locked state, so the model performs the lookup once. -/
def set_data (id : Nat) (data : Bytes) (s : Store) : Except String Nat × Store :=
  match s.ui.get_file_for_path_id id with
  | none => (.error "path id has expired", s)
  | some slot =>
    let f := s.ui.get_file slot
    match f.file_path with
    | none => (.error "file hasn't been selected yet", s)
    | some path =>
      let comp := isLz4Path path
      let (d, s') := allocDataId s
      (.ok d,
        { s' with
          ui := s'.ui.set_file slot
            { file_path := f.file_path
              is_compressed := comp
              data := some data
              data_id := d
              path_id := id
              session := none } })

/-- Mirrors `load_data`.  `fs` models the blocking closure that opens and
reads the file (including the error-message formatting with the offending
path); the compressed flag is inferred from the path extension inside that
closure.  After the read the path id is validated again (in the source a
second critical section after the `await`; in this sequential model the
state is the one before the read). -/
def load_data (fs : String → Except String Bytes) (id : Nat) (s : Store) :
    Except String Nat × Store :=
  match s.ui.get_file_for_path_id id with
  | none => (.error "path id has expired", s)
  | some slot =>
    match (s.ui.get_file slot).file_path with
    | none => (.error "file hasn't been selected yet", s)
    | some path =>
      match fs path with
      | .error e => (.error e, s)
      | .ok data =>
        let comp := isLz4Path path
        match s.ui.get_file_for_path_id id with
        | none => (.error "path id expired while reading file data", s)
        | some slot2 =>
          let f2 := s.ui.get_file slot2
          let (d, s') := allocDataId s
          (.ok d,
            { s' with
              ui := s'.ui.set_file slot2
                { file_path := f2.file_path
                  is_compressed := comp
                  data := some data
                  data_id := d
                  path_id := id
                  session := none } })

/-! Panic model and the deferred-execution primitive. -/

/-- Outcome of running a closure that may panic: either the closure panicked
(an abnormal termination that, if not caught, propagates to — and crashes —
the caller), or it completed with a value. -/
inductive PanicOr (R : Type) where
  | panicked
  | value (r : R)
deriving DecidableEq, Repr

/-- Mirrors the `spawn_blocking` helper of `host.rs`.  On wasm the closure
runs inline, so a panic inside it propagates directly to the caller; on
other targets the closure runs via `tokio::task::spawn_blocking` and the
`JoinHandle` is `.unwrap()`ed, which re-raises a closure panic in the
awaiting caller.  Either way the caller observes the closure's own outcome,
panics included — `spawn_blocking` performs no panic containment. -/
def spawn_blocking {R : Type} (f : Unit → PanicOr R) : PanicOr R :=
  f ()

/-- Mirrors `std::panic::catch_unwind`: a panic inside the closure is caught
and returned as `Except.error`. -/
def catch_unwind {R : Type} (f : Unit → PanicOr R) : Except Unit R :=
  match f () with
  | .panicked => .error ()
  | .value v => .ok v

/-- The body of the closure `decompress_data` passes to `spawn_blocking`:
the external lz4 codec call (modelled by `codec`, which may panic) is
wrapped in `catch_unwind`, and a caught panic is converted by
`unwrap_or_else` into the fixed error string. -/
def decompressClosure (codec : Bytes → PanicOr (Except String Bytes))
    (data : Bytes) : Except String Bytes :=
  match catch_unwind (fun _ => codec data) with
  | .error _ => .error "decompression of sessionstore data panicked"
  | .ok r => r

/-- Mirrors `decompress_data`.  `codec` models
`firefox_session_data::io_utils::decompress_lz4_data` together with the
`map_err` formatting (a codec failure arrives as an already-formatted
`Except.error`); a panic raised by the codec is represented by
`PanicOr.panicked`.  The closure handed to `spawn_blocking` wraps the codec
in `catch_unwind`, so it never itself panics, and
`spawn_blocking (fun _ => PanicOr.value r)` reduces to `PanicOr.value r`;
the model therefore uses the closure's value directly.  After the deferred
work the data id is validated again ("file id expired while
decompressing"). -/
def decompress_data (codec : Bytes → PanicOr (Except String Bytes))
    (id : Nat) (s : Store) : Except String Unit × Store :=
  match s.ui.get_file_for_data_id id with
  | none => (.error "file id has expired", s)
  | some slot =>
    let f := s.ui.get_file slot
    match f.data with
    | none => (.error "file data not loaded", s)
    | some data =>
      if !f.is_compressed then (.error "the data was already uncompressed", s)
      else
        match decompressClosure codec data with
        | .error e => (.error e, s)
        | .ok out =>
          match s.ui.get_file_for_data_id id with
          | none => (.error "file id expired while decompressing", s)
          | some slot2 =>
            let f2 := s.ui.get_file slot2
            (.ok (),
              { s with
                ui := s.ui.set_file slot2
                  { f2 with data := some out, is_compressed := false } })

/-- Mirrors `parse_session_data`.  `pf` models the `serde_json::from_slice`
call together with its `map_err` formatting.  On success the session is
stored and the raw data freed. -/
def parse_session_data (pf : Bytes → Except String Session)
    (id : Nat) (s : Store) : Except String Unit × Store :=
  match s.ui.get_file_for_data_id id with
  | none => (.error "file id has expired", s)
  | some slot =>
    let f := s.ui.get_file slot
    match f.data with
    | none => (.error "file data not loaded", s)
    | some data =>
      if f.is_compressed then (.error "can't parse compressed data", s)
      else
        match pf data with
        | .error e => (.error e, s)
        | .ok sess =>
          match s.ui.get_file_for_data_id id with
          | none => (.error "file id expired while parsing JSON", s)
          | some slot2 =>
            let f2 := s.ui.get_file slot2
            (.ok (),
              { s with
                ui := s.ui.set_file slot2
                  { f2 with session := some sess, data := none } })

/-- Mirrors `forget_data`: reset the matching record but preserve its
`path_id` and `file_path`; no-op when the id matches neither record. -/
def forget_data (id : Nat) (s : Store) : Store :=
  match s.ui.get_file_for_data_id id with
  | none => s
  | some slot =>
    let f := s.ui.get_file slot
    { s with
      ui := s.ui.set_file slot
        { FileState.default with path_id := f.path_id, file_path := f.file_path } }

/-- Mirrors `forget_path`: reset the matching record to full default; no-op
when the id matches neither record. -/
def forget_path (id : Nat) (s : Store) : Store :=
  match s.ui.get_file_for_path_id id with
  | none => s
  | some slot => { s with ui := s.ui.set_file slot FileState.default }

/-- Mirrors `commit_new_file`: `current_file` becomes the old `new_file`
(`std::mem::take` leaves a default record in `new_file`), then the New
record receives a fresh path id and a clone of the committed record's
`file_path`. -/
def commit_new_file (s : Store) : Store :=
  let old_new := s.ui.new_file
  let (fresh, s') := allocPathId s
  { s' with
    ui :=
      { s'.ui with
        current_file := old_new
        new_file :=
          { FileState.default with path_id := fresh, file_path := old_new.file_path } } }

/-! Group selection for link generation (`to_text_links` / `save_links`). -/

/-- Mirrors `struct GenerateOptions` from `lib.rs` (`u32` indexes as
`Nat`). -/
structure GenerateOptions where
  open_group_indexes : Option (List Nat)
  closed_group_indexes : Option (List Nat)
  sort_groups : Bool
  table_of_content : Bool
  tree_style_tab_trees : Bool
  sidebery_trees : Bool
deriving DecidableEq, Repr

/-- The filter applied by `to_text_links` and `save_links` to one enumerated
group iterator: `.enumerate().filter(|(ix, _)| match indexes { Some(l) =>
l.contains(&(*ix as u32)), None => true }).map(|(_, g)| g)`.  The `usize`
to `u32` cast is the reduction modulo `2 ^ 32`. -/
def filterGroupsByIndexes {α : Type} (idxs : Option (List Nat)) (gs : List α) :
    List α :=
  (gs.enum.filter (fun p =>
      match idxs with
      | some l => l.contains (p.1 % 2 ^ 32)
      | none => true)).map Prod.snd

/-- The group sequence `to_text_links` hands to
`firefox_session_data::tabs_to_links`: the filtered open groups chained
with the filtered closed groups.  `openGroups` / `closedGroups` are the
lists produced by the external enumerator `get_groups_from_session` for
open respectively closed groups. -/
def to_text_links_groups {α : Type} (openGroups closedGroups : List α)
    (opts : GenerateOptions) : List α :=
  filterGroupsByIndexes opts.open_group_indexes openGroups ++
    filterGroupsByIndexes opts.closed_group_indexes closedGroups

/-- The group sequence `save_links` hands to `tabs_to_links`; the source
duplicates the selection code of `to_text_links` verbatim. -/
def save_links_groups {α : Type} (openGroups closedGroups : List α)
    (opts : GenerateOptions) : List α :=
  filterGroupsByIndexes opts.open_group_indexes openGroups ++
    filterGroupsByIndexes opts.closed_group_indexes closedGroups

/-- Formalisation of the SPEC's words for group filtering (for comparison
with the source-derived definitions): when an index set is supplied, exactly
the groups whose enumeration index is a member of the set, in order; when
absent, all groups. -/
def specSelectedGroups {α : Type} (idxs : Option (List Nat)) (gs : List α) :
    List α :=
  match idxs with
  | none => gs
  | some l => (gs.enum.filter (fun p => l.contains p.1)).map Prod.snd

/-! Reachability by the command operations, and the identifier invariant. -/

/-- States reachable from the start state by any sequence of the eight
command operations, with arbitrary arguments and arbitrary behaviours of
the external filesystem, codec and parser. -/
inductive Reachable : Store → Prop where
  | init : Reachable initialStore
  | set_open_path_step {s : Store} (slot : FileSlot) (path : String) :
      Reachable s → Reachable (set_open_path slot path s).2
  | set_data_step {s : Store} (id : Nat) (data : Bytes) :
      Reachable s → Reachable (set_data id data s).2
  | load_data_step {s : Store} (fs : String → Except String Bytes) (id : Nat) :
      Reachable s → Reachable (load_data fs id s).2
  | decompress_data_step {s : Store} (codec : Bytes → PanicOr (Except String Bytes))
      (id : Nat) : Reachable s → Reachable (decompress_data codec id s).2
  | parse_session_data_step {s : Store} (pf : Bytes → Except String Session)
      (id : Nat) : Reachable s → Reachable (parse_session_data pf id s).2
  | forget_data_step {s : Store} (id : Nat) :
      Reachable s → Reachable (forget_data id s)
  | forget_path_step {s : Store} (id : Nat) :
      Reachable s → Reachable (forget_path id s)
  | commit_new_file_step {s : Store} :
      Reachable s → Reachable (commit_new_file s)

/-- Allocator/identifier invariant: every stored identifier is below its
allocator counter (so freshly allocated identifiers differ from every
stored one), and a non-null identifier is never held by both records. -/
def Inv (s : Store) : Prop :=
  s.ui.current_file.path_id < s.nextPathId ∧
  s.ui.new_file.path_id < s.nextPathId ∧
  s.ui.current_file.data_id < s.nextDataId ∧
  s.ui.new_file.data_id < s.nextDataId ∧
  (s.ui.current_file.path_id = 0 ∨
    s.ui.current_file.path_id ≠ s.ui.new_file.path_id) ∧
  (s.ui.current_file.data_id = 0 ∨
    s.ui.current_file.data_id ≠ s.ui.new_file.data_id)

lemma inv_initialStore : Inv initialStore := by
  simp [Inv, initialStore, FileState.default]

lemma inv_set_open_path (slot : FileSlot) (path : String) (s : Store)
    (h : Inv s) : Inv (set_open_path slot path s).2 := by
  obtain ⟨h1, h2, h3, h4, h5, h6⟩ := h
  cases slot <;>
    simp [set_open_path, allocPathId, UiState.set_file, Inv,
      FileState.default] <;>
    omega

lemma inv_set_data (id : Nat) (data : Bytes) (s : Store)
    (h : Inv s) : Inv (set_data id data s).2 := by
  obtain ⟨h1, h2, h3, h4, h5, h6⟩ := h
  by_cases hc : s.ui.current_file.path_id = id <;>
    by_cases hn : s.ui.new_file.path_id = id <;>
      cases hfc : s.ui.current_file.file_path <;>
        cases hfn : s.ui.new_file.file_path <;>
          simp [set_data, UiState.get_file_for_path_id, UiState.get_file,
            UiState.set_file, allocDataId, Inv, hc, hn, hfc, hfn] <;>
          omega

lemma inv_load_data (fs : String → Except String Bytes) (id : Nat) (s : Store)
    (h : Inv s) : Inv (load_data fs id s).2 := by
  obtain ⟨h1, h2, h3, h4, h5, h6⟩ := h
  by_cases hc : s.ui.current_file.path_id = id <;>
    by_cases hn : s.ui.new_file.path_id = id <;>
      cases hfc : s.ui.current_file.file_path <;>
        cases hfn : s.ui.new_file.file_path <;>
          simp [load_data, UiState.get_file_for_path_id, UiState.get_file,
            UiState.set_file, allocDataId, Inv, hc, hn, hfc, hfn] <;>
          (try split) <;> simp_all <;> omega

lemma inv_decompress_data (codec : Bytes → PanicOr (Except String Bytes))
    (id : Nat) (s : Store) (h : Inv s) : Inv (decompress_data codec id s).2 := by
  obtain ⟨h1, h2, h3, h4, h5, h6⟩ := h
  by_cases hc : s.ui.current_file.data_id = id <;>
    by_cases hn : s.ui.new_file.data_id = id <;>
      cases hdc : s.ui.current_file.data <;>
        cases hdn : s.ui.new_file.data <;>
          simp [decompress_data, UiState.get_file_for_data_id,
            UiState.get_file, UiState.set_file, Inv, hc, hn, hdc, hdn] <;>
          (try split) <;> (try split) <;> simp_all

lemma inv_parse_session_data (pf : Bytes → Except String Session)
    (id : Nat) (s : Store) (h : Inv s) : Inv (parse_session_data pf id s).2 := by
  obtain ⟨h1, h2, h3, h4, h5, h6⟩ := h
  by_cases hc : s.ui.current_file.data_id = id <;>
    by_cases hn : s.ui.new_file.data_id = id <;>
      cases hdc : s.ui.current_file.data <;>
        cases hdn : s.ui.new_file.data <;>
          simp [parse_session_data, UiState.get_file_for_data_id,
            UiState.get_file, UiState.set_file, Inv, hc, hn, hdc, hdn] <;>
          (try split) <;> (try split) <;> simp_all

lemma inv_forget_data (id : Nat) (s : Store) (h : Inv s) :
    Inv (forget_data id s) := by
  obtain ⟨h1, h2, h3, h4, h5, h6⟩ := h
  by_cases hc : s.ui.current_file.data_id = id <;>
    by_cases hn : s.ui.new_file.data_id = id <;>
      simp [forget_data, UiState.get_file_for_data_id, UiState.get_file,
        UiState.set_file, Inv, FileState.default, hc, hn] <;>
      omega

lemma inv_forget_path (id : Nat) (s : Store) (h : Inv s) :
    Inv (forget_path id s) := by
  obtain ⟨h1, h2, h3, h4, h5, h6⟩ := h
  by_cases hc : s.ui.current_file.path_id = id <;>
    by_cases hn : s.ui.new_file.path_id = id <;>
      simp [forget_path, UiState.get_file_for_path_id, UiState.get_file,
        UiState.set_file, Inv, FileState.default, hc, hn] <;>
      omega

lemma inv_commit_new_file (s : Store) (h : Inv s) : Inv (commit_new_file s) := by
  obtain ⟨h1, h2, h3, h4, h5, h6⟩ := h
  simp [commit_new_file, allocPathId, Inv, FileState.default]
  omega

lemma inv_of_reachable (s : Store) (h : Reachable s) : Inv s := by
  induction h with
  | init => exact inv_initialStore
  | set_open_path_step slot path _ ih => exact inv_set_open_path slot path _ ih
  | set_data_step id data _ ih => exact inv_set_data id data _ ih
  | load_data_step fs id _ ih => exact inv_load_data fs id _ ih
  | decompress_data_step codec id _ ih => exact inv_decompress_data codec id _ ih
  | parse_session_data_step pf id _ ih => exact inv_parse_session_data pf id _ ih
  | forget_data_step id _ ih => exact inv_forget_data id _ ih
  | forget_path_step id _ ih => exact inv_forget_path id _ ih
  | commit_new_file_step _ ih => exact inv_commit_new_file _ ih

/-! Helper lemmas. -/

/-- The other of the two slots. -/
def otherSlot : FileSlot → FileSlot
  | .New => .Current
  | .Current => .New

@[simp] lemma get_file_set_file_same (u : UiState) (slot : FileSlot)
    (f : FileState) : (u.set_file slot f).get_file slot = f := by
  cases slot <;> rfl

@[simp] lemma get_file_set_file_other (u : UiState) (slot : FileSlot)
    (f : FileState) : (u.set_file slot f).get_file (otherSlot slot) =
      u.get_file (otherSlot slot) := by
  cases slot <;> rfl

@[simp] lemma save_path_set_file (u : UiState) (slot : FileSlot)
    (f : FileState) : (u.set_file slot f).save_path = u.save_path := by
  cases slot <;> rfl

lemma data_id_of_lookup (u : UiState) (id : Nat) (slot : FileSlot)
    (h : u.get_file_for_data_id id = some slot) :
    (u.get_file slot).data_id = id := by
  unfold UiState.get_file_for_data_id at h
  split_ifs at h with h1 h2
  · injection h with h'
    subst h'
    simpa [UiState.get_file] using h1
  · injection h with h'
    subst h'
    simpa [UiState.get_file] using h2

lemma status_compressed_iff (f : FileState) :
    f.status = .Compressed ↔
      (f.session = none ∧ f.data.isSome = true ∧ f.is_compressed = true) := by
  unfold FileState.status FileState.to_info
  cases f.session <;> cases f.data <;> cases f.is_compressed <;> simp <;>
    split <;> simp

/-! Claim theorems. -/

/-- C1: for every store state in which the given identifier does not occur
as the `path_id` (for `load_data` / `set_data`) or `data_id` (for
`decompress_data` / `parse_session_data`) of either the New or the Current
record, the command returns an error reporting the identifier as expired
and leaves the store (records, save path, counters) exactly unchanged; in
particular, after `forget_path p`, `load_data p` returns the "path id has
expired" error (provided `p` is non-null and not held by both records at
once). -/
theorem stale_id_commands_fail_and_preserve_store
    (s : Store) (fs : String → Except String Bytes)
    (codec : Bytes → PanicOr (Except String Bytes))
    (pf : Bytes → Except String Session)
    (p d : Nat) (bytes : Bytes) :
    (s.ui.current_file.path_id ≠ p → s.ui.new_file.path_id ≠ p →
      set_data p bytes s = (.error "path id has expired", s) ∧
      load_data fs p s = (.error "path id has expired", s)) ∧
    (s.ui.current_file.data_id ≠ d → s.ui.new_file.data_id ≠ d →
      decompress_data codec d s = (.error "file id has expired", s) ∧
      parse_session_data pf d s = (.error "file id has expired", s)) ∧
    (p ≠ 0 → ¬(s.ui.current_file.path_id = p ∧ s.ui.new_file.path_id = p) →
      load_data fs p (forget_path p s) =
        (.error "path id has expired", forget_path p s)) := by
  refine ⟨fun h1 h2 => ?_, fun h1 h2 => ?_, fun hp hb => ?_⟩
  · constructor <;>
      simp [set_data, load_data, UiState.get_file_for_path_id, h1, h2]
  · constructor <;>
      simp [decompress_data, parse_session_data, UiState.get_file_for_data_id,
        h1, h2]
  · by_cases hc : s.ui.current_file.path_id = p
    · have hn : s.ui.new_file.path_id ≠ p := fun h => hb ⟨hc, h⟩
      simp [forget_path, UiState.get_file_for_path_id, hc, hn, load_data,
        UiState.set_file, FileState.default, Ne.symm hp]
    · by_cases hn : s.ui.new_file.path_id = p
      · simp [forget_path, UiState.get_file_for_path_id, hc, hn, load_data,
          UiState.set_file, FileState.default, Ne.symm hp]
      · simp [forget_path, UiState.get_file_for_path_id, hc, hn, load_data]

theorem stale_id_commands_witness :
    set_data 1 [] initialStore = (.error "path id has expired", initialStore) ∧
    load_data (fun _ => .error "io") 1 initialStore =
      (.error "path id has expired", initialStore) ∧
    decompress_data (fun _ => .value (.error "x")) 1 initialStore =
      (.error "file id has expired", initialStore) ∧
    parse_session_data (fun _ => .error "y") 1 initialStore =
      (.error "file id has expired", initialStore) ∧
    load_data (fun _ => .error "io") 1 (forget_path 1 initialStore) =
      (.error "path id has expired", forget_path 1 initialStore) := by
  have h := stale_id_commands_fail_and_preserve_store initialStore
    (fun _ => .error "io") (fun _ => .value (.error "x"))
    (fun _ => .error "y") 1 1 []
  exact ⟨(h.1 (by decide) (by decide)).1, (h.1 (by decide) (by decide)).2,
    (h.2.1 (by decide) (by decide)).1, (h.2.1 (by decide) (by decide)).2,
    h.2.2 (by decide) (by decide)⟩

/-- C2: after `commit_new_file` the Current record equals the pre-call New
record in all fields; the New record keeps the pre-call New `file_path`,
receives the freshly allocated path id (in particular one different from
the pre-call New path id, as the pre-call id was allocated earlier and the
counter only grows), and all its other fields are the default record's
(null data id, no data, no session, `is_compressed` true). -/
theorem commit_new_file_spec (s : Store)
    (h : s.ui.new_file.path_id < s.nextPathId) :
    (commit_new_file s).ui.current_file = s.ui.new_file ∧
    (commit_new_file s).ui.new_file.file_path = s.ui.new_file.file_path ∧
    (commit_new_file s).ui.new_file.path_id = s.nextPathId ∧
    (commit_new_file s).ui.new_file.path_id ≠ s.ui.new_file.path_id ∧
    (commit_new_file s).ui.new_file.data_id = 0 ∧
    (commit_new_file s).ui.new_file.data = none ∧
    (commit_new_file s).ui.new_file.session = none ∧
    (commit_new_file s).ui.new_file.is_compressed = true := by
  simp [commit_new_file, allocPathId, FileState.default]
  omega

/-- Store used to instantiate several witnesses: a Current record with
loaded compressed data and a default New record. -/
def exStore : Store :=
  { ui :=
      { current_file :=
          { path_id := 1
            data_id := 1
            file_path := some "a.jsonlz4"
            is_compressed := true
            data := some [7]
            session := none }
        new_file := FileState.default
        save_path := none }
    nextPathId := 2
    nextDataId := 2 }

/-- Store with a non-null path id in the New slot (pre-commit shape). -/
def preCommitStore : Store :=
  { ui :=
      { current_file := FileState.default
        new_file :=
          { FileState.default with path_id := 5, file_path := some "f.jsonlz4" }
        save_path := none }
    nextPathId := 6
    nextDataId := 1 }

theorem commit_new_file_spec_witness :
    preCommitStore.ui.new_file.path_id < preCommitStore.nextPathId ∧
    ((commit_new_file preCommitStore).ui.current_file =
        preCommitStore.ui.new_file ∧
      (commit_new_file preCommitStore).ui.new_file.file_path =
        preCommitStore.ui.new_file.file_path ∧
      (commit_new_file preCommitStore).ui.new_file.path_id =
        preCommitStore.nextPathId ∧
      (commit_new_file preCommitStore).ui.new_file.path_id ≠
        preCommitStore.ui.new_file.path_id ∧
      (commit_new_file preCommitStore).ui.new_file.data_id = 0 ∧
      (commit_new_file preCommitStore).ui.new_file.data = none ∧
      (commit_new_file preCommitStore).ui.new_file.session = none ∧
      (commit_new_file preCommitStore).ui.new_file.is_compressed = true) :=
  ⟨by decide, commit_new_file_spec preCommitStore (by decide)⟩

/-- C3 counterexample: in a store whose New record holds the non-null path
id `5`, after `commit_new_file` the id `5` still resolves — the lookup and
`get_info_for_path_id` both find a record (the committed Current one), so
the claim that the lookup "returns not-found" is false. -/
theorem commit_old_path_id_counterexample :
    (commit_new_file preCommitStore).ui.get_file_for_path_id 5 ≠ none ∧
    get_info_for_path_id (commit_new_file preCommitStore).ui 5 ≠ none := by
  decide

/-- C3 amended: after `commit_new_file`, the pre-call New record's non-null
path id `p` resolves to the **Current** slot (which holds exactly the
pre-call New record), and only the New slot's reference is invalidated: the
New record's fresh path id differs from `p`. -/
theorem commit_old_path_id_resolves_to_current (s : Store) (p : Nat)
    (hp : s.ui.new_file.path_id = p) (h0 : p ≠ 0)
    (hlt : s.ui.new_file.path_id < s.nextPathId) :
    (commit_new_file s).ui.get_file_for_path_id p = some .Current ∧
    (commit_new_file s).ui.current_file = s.ui.new_file ∧
    get_info_for_path_id (commit_new_file s).ui p =
      some s.ui.new_file.to_info ∧
    (commit_new_file s).ui.new_file.path_id ≠ p := by
  subst hp
  simp [commit_new_file, allocPathId, UiState.get_file_for_path_id,
    get_info_for_path_id, UiState.get_file, FileState.default]
  omega

theorem commit_old_path_id_resolves_witness :
    preCommitStore.ui.new_file.path_id = 5 ∧ 5 ≠ 0 ∧
    preCommitStore.ui.new_file.path_id < preCommitStore.nextPathId ∧
    ((commit_new_file preCommitStore).ui.get_file_for_path_id 5 =
        some .Current ∧
      (commit_new_file preCommitStore).ui.current_file =
        preCommitStore.ui.new_file ∧
      get_info_for_path_id (commit_new_file preCommitStore).ui 5 =
        some preCommitStore.ui.new_file.to_info ∧
      (commit_new_file preCommitStore).ui.new_file.path_id ≠ 5) :=
  ⟨by decide, by decide, by decide,
    commit_old_path_id_resolves_to_current preCommitStore 5 (by decide)
      (by decide) (by decide)⟩

/-- UiState in which both records hold the same non-null path id and the
same non-null data id (not reachable through the command layer, but a legal
value of the data type, exposing the lookup order). -/
def doubledUi : UiState :=
  { current_file := { FileState.default with path_id := 7, data_id := 3 }
    new_file := { FileState.default with path_id := 7, data_id := 3 }
    save_path := none }

/-- C4 counterexample: on the default store both lookups at the reserved
null id `0` return a record (the Current one) instead of `None`, and when
both records match an id the lookups return the Current slot, not the New
one — so both halves of the claim (null gives `None`; New is consulted
first) are false. -/
theorem lookup_null_and_order_counterexample :
    initialStore.ui.get_file_for_path_id 0 ≠ none ∧
    initialStore.ui.get_file_for_data_id 0 ≠ none ∧
    doubledUi.get_file_for_path_id 7 = some .Current ∧
    doubledUi.get_file_for_data_id 3 = some .Current := by
  decide

/-- C4 amended: the lookups give the null id no special treatment and
consult the Current record before the New record: an id (null included)
resolves to Current when the Current record stores it, else to New when the
New record stores it, else to nothing — for both the path-id and the
data-id lookup. -/
theorem lookup_order_and_no_null_check (u : UiState) (id : Nat) :
    (u.current_file.path_id = id →
      u.get_file_for_path_id id = some .Current) ∧
    (u.current_file.path_id ≠ id → u.new_file.path_id = id →
      u.get_file_for_path_id id = some .New) ∧
    (u.current_file.path_id ≠ id → u.new_file.path_id ≠ id →
      u.get_file_for_path_id id = none) ∧
    (u.current_file.data_id = id →
      u.get_file_for_data_id id = some .Current) ∧
    (u.current_file.data_id ≠ id → u.new_file.data_id = id →
      u.get_file_for_data_id id = some .New) ∧
    (u.current_file.data_id ≠ id → u.new_file.data_id ≠ id →
      u.get_file_for_data_id id = none) := by
  refine ⟨fun h1 => ?_, fun h1 h2 => ?_, fun h1 h2 => ?_, fun h1 => ?_,
    fun h1 h2 => ?_, fun h1 h2 => ?_⟩ <;>
    simp [UiState.get_file_for_path_id, UiState.get_file_for_data_id, h1]
  · simp [h2]
  · simp [h2]
  · simp [h2]
  · simp [h2]

theorem lookup_order_witness :
    doubledUi.get_file_for_path_id 7 = some .Current ∧
    initialStore.ui.get_file_for_path_id 0 = some .Current ∧
    doubledUi.get_file_for_data_id 3 = some .Current ∧
    initialStore.ui.get_file_for_path_id 9 = none :=
  ⟨(lookup_order_and_no_null_check doubledUi 7).1 (by decide),
    (lookup_order_and_no_null_check initialStore.ui 0).1 (by decide),
    (lookup_order_and_no_null_check doubledUi 3).2.2.2.1 (by decide),
    (lookup_order_and_no_null_check initialStore.ui 9).2.2.1 (by decide)
      (by decide)⟩

/-- C5 counterexample: `spawn_blocking` performs no panic containment — a
closure that panics produces a propagated panic at the call site (the
inline call on wasm, the `.unwrap()` of the tokio `JoinHandle` otherwise),
not an ordinary error value; so the claim that a panic in *every* closure
passed to `spawn_blocking` is caught and surfaced as an error is false. -/
theorem spawn_blocking_panic_counterexample :
    spawn_blocking (fun _ => (PanicOr.panicked : PanicOr (Except String Unit)))
      = PanicOr.panicked := by
  rfl

/-- C5 amended: panic containment exists only inside the closure
`decompress_data` passes to `spawn_blocking`, around the codec call: when
the codec panics, `catch_unwind` converts the panic into the ordinary error
"decompression of sessionstore data panicked" — so that closure itself
never panics, the caller receives the error value, and the store is left
unchanged.  `spawn_blocking` itself propagates panics (see the
counterexample). -/
theorem decompress_codec_panic_contained (s : Store) (d : Nat)
    (codec : Bytes → PanicOr (Except String Bytes)) (slot : FileSlot)
    (bs : Bytes)
    (hl : s.ui.get_file_for_data_id d = some slot)
    (hdata : (s.ui.get_file slot).data = some bs)
    (hcomp : (s.ui.get_file slot).is_compressed = true)
    (hpanic : codec bs = .panicked) :
    decompressClosure codec bs =
      .error "decompression of sessionstore data panicked" ∧
    decompress_data codec d s =
      (.error "decompression of sessionstore data panicked", s) := by
  have hclosure : decompressClosure codec bs =
      .error "decompression of sessionstore data panicked" := by
    simp [decompressClosure, catch_unwind, hpanic]
  refine ⟨hclosure, ?_⟩
  simp [decompress_data, hl, hdata, hcomp, hclosure]

theorem decompress_codec_panic_witness :
    exStore.ui.get_file_for_data_id 1 = some .Current ∧
    (exStore.ui.get_file .Current).data = some [7] ∧
    (exStore.ui.get_file .Current).is_compressed = true ∧
    (decompressClosure (fun _ => .panicked) [7] =
        .error "decompression of sessionstore data panicked" ∧
      decompress_data (fun _ => .panicked) 1 exStore =
        (.error "decompression of sessionstore data panicked", exStore)) :=
  ⟨by decide, by decide, by decide,
    decompress_codec_panic_contained exStore 1 (fun _ => .panicked) .Current
      [7] (by decide) (by decide) (by decide) rfl⟩

/-- C6: on a record in status Compressed addressed by data id `d`, a
successful `decompress_data d` replaces only the raw data (with the codec
output) and clears the compressed flag: the record moves to status
Uncompressed keeping the same data id, its `path_id`, `file_path` and
`session` are untouched, and the other slot, the save path and the
allocator counters are exactly unchanged. -/
theorem decompress_success_frame (s : Store) (d : Nat) (slot : FileSlot)
    (codec : Bytes → PanicOr (Except String Bytes)) (bs out : Bytes)
    (hl : s.ui.get_file_for_data_id d = some slot)
    (hst : (s.ui.get_file slot).status = .Compressed)
    (hdata : (s.ui.get_file slot).data = some bs)
    (hcodec : codec bs = .value (.ok out)) :
    decompress_data codec d s =
      (.ok (),
        { s with
          ui := s.ui.set_file slot
            { s.ui.get_file slot with
              data := some out
              is_compressed := false } }) ∧
    ((decompress_data codec d s).2.ui.get_file slot).status = .Uncompressed ∧
    ((decompress_data codec d s).2.ui.get_file slot).data_id = d ∧
    ((decompress_data codec d s).2.ui.get_file slot).path_id =
      (s.ui.get_file slot).path_id ∧
    ((decompress_data codec d s).2.ui.get_file slot).file_path =
      (s.ui.get_file slot).file_path ∧
    ((decompress_data codec d s).2.ui.get_file slot).session =
      (s.ui.get_file slot).session ∧
    ((decompress_data codec d s).2.ui.get_file slot).data = some out ∧
    (decompress_data codec d s).2.ui.get_file (otherSlot slot) =
      s.ui.get_file (otherSlot slot) ∧
    (decompress_data codec d s).2.ui.save_path = s.ui.save_path ∧
    (decompress_data codec d s).2.nextPathId = s.nextPathId ∧
    (decompress_data codec d s).2.nextDataId = s.nextDataId := by
  obtain ⟨hsess, _, hcomp⟩ := (status_compressed_iff _).1 hst
  have hdid := data_id_of_lookup s.ui d slot hl
  have heq : decompress_data codec d s =
      (.ok (),
        { s with
          ui := s.ui.set_file slot
            { s.ui.get_file slot with
              data := some out
              is_compressed := false } }) := by
    simp [decompress_data, hl, hdata, hcomp, decompressClosure, catch_unwind,
      hcodec]
  refine ⟨heq, ?_, ?_, ?_, ?_, ?_, ?_, ?_, ?_, ?_, ?_⟩ <;>
    simp [heq, FileState.status, FileState.to_info, hsess, hdid]

theorem decompress_success_frame_witness :
    exStore.ui.get_file_for_data_id 1 = some .Current ∧
    (exStore.ui.get_file .Current).status = .Compressed ∧
    (exStore.ui.get_file .Current).data = some [7] ∧
    (decompress_data (fun _ => .value (.ok [9])) 1 exStore =
        (.ok (),
          { exStore with
            ui := exStore.ui.set_file .Current
              { exStore.ui.get_file .Current with
                data := some [9]
                is_compressed := false } }) ∧
      ((decompress_data (fun _ => .value (.ok [9])) 1 exStore).2.ui.get_file
          .Current).status = .Uncompressed ∧
      ((decompress_data (fun _ => .value (.ok [9])) 1 exStore).2.ui.get_file
          .Current).data_id = 1 ∧
      ((decompress_data (fun _ => .value (.ok [9])) 1 exStore).2.ui.get_file
          .Current).path_id = (exStore.ui.get_file .Current).path_id ∧
      ((decompress_data (fun _ => .value (.ok [9])) 1 exStore).2.ui.get_file
          .Current).file_path = (exStore.ui.get_file .Current).file_path ∧
      ((decompress_data (fun _ => .value (.ok [9])) 1 exStore).2.ui.get_file
          .Current).session = (exStore.ui.get_file .Current).session ∧
      ((decompress_data (fun _ => .value (.ok [9])) 1 exStore).2.ui.get_file
          .Current).data = some [9] ∧
      (decompress_data (fun _ => .value (.ok [9])) 1 exStore).2.ui.get_file
          (otherSlot .Current) = exStore.ui.get_file (otherSlot .Current) ∧
      (decompress_data (fun _ => .value (.ok [9])) 1 exStore).2.ui.save_path =
        exStore.ui.save_path ∧
      (decompress_data (fun _ => .value (.ok [9])) 1 exStore).2.nextPathId =
        exStore.nextPathId ∧
      (decompress_data (fun _ => .value (.ok [9])) 1 exStore).2.nextDataId =
        exStore.nextDataId) :=
  ⟨by decide, by decide, by decide,
    decompress_success_frame exStore 1 .Current (fun _ => .value (.ok [9]))
      [7] [9] (by decide) (by decide) (by decide) rfl⟩

/-- Store holding a parsed Current record: data id non-null, compressed
flag clear, raw data already freed (`parse_session_data` clears it),
session present. -/
def parsedStore : Store :=
  { ui :=
      { current_file :=
          { path_id := 1
            data_id := 1
            file_path := some "a.js"
            is_compressed := false
            data := none
            session := some ⟨[]⟩ }
        new_file := FileState.default
        save_path := none }
    nextPathId := 2
    nextDataId := 2 }

/-- C7 counterexample: a record whose `is_compressed` flag is false but
whose raw data is absent (the shape every parsed record has) makes
`decompress_data` fail with "file data not loaded" — the data-presence
check precedes the flag check — so the claim that every record with a clear
flag yields the "the data was already uncompressed" error is false. -/
theorem decompress_already_uncompressed_counterexample :
    (decompress_data (fun _ => .value (.error "e")) 1 parsedStore).1 =
      .error "file data not loaded" ∧
    "file data not loaded" ≠ "the data was already uncompressed" :=
  ⟨rfl, by decide⟩

/-- C7 amended: on a record addressed by its data identifier whose raw data
is **present** and whose `is_compressed` flag is already false,
`decompress_data` returns the "the data was already uncompressed" error and
leaves the whole store unchanged. -/
theorem decompress_already_uncompressed (s : Store) (d : Nat)
    (slot : FileSlot) (codec : Bytes → PanicOr (Except String Bytes))
    (bs : Bytes)
    (hl : s.ui.get_file_for_data_id d = some slot)
    (hdata : (s.ui.get_file slot).data = some bs)
    (hcomp : (s.ui.get_file slot).is_compressed = false) :
    decompress_data codec d s =
      (.error "the data was already uncompressed", s) := by
  simp [decompress_data, hl, hdata, hcomp]

/-- Store holding an Uncompressed Current record (raw data present, flag
clear). -/
def uncompressedStore : Store :=
  { ui :=
      { current_file :=
          { path_id := 1
            data_id := 1
            file_path := some "a.js"
            is_compressed := false
            data := some [7]
            session := none }
        new_file := FileState.default
        save_path := none }
    nextPathId := 2
    nextDataId := 2 }

theorem decompress_already_uncompressed_witness :
    uncompressedStore.ui.get_file_for_data_id 1 = some .Current ∧
    (uncompressedStore.ui.get_file .Current).data = some [7] ∧
    (uncompressedStore.ui.get_file .Current).is_compressed = false ∧
    decompress_data (fun _ => .value (.ok [])) 1 uncompressedStore =
      (.error "the data was already uncompressed", uncompressedStore) :=
  ⟨by decide, by decide, by decide,
    decompress_already_uncompressed uncompressedStore 1 .Current
      (fun _ => .value (.ok [])) [7] (by decide) (by decide) (by decide)⟩

instance (s : Store) : Decidable (Inv s) := by
  unfold Inv
  infer_instance

/-- C8: starting from a store satisfying the allocator invariant,
`set_open_path slot path` followed by `set_data` on the returned path id
succeeds, and likewise `load_data` when the filesystem read succeeds; in
both cases the slot's record ends up with exactly the supplied/read bytes,
a fresh non-null data id, a cleared session, and the compressed flag —
hence the status — determined by whether the path's extension ends in
"lz4": status Compressed iff `isLz4Path path`, else Uncompressed. -/
theorem open_path_then_data_status (slot : FileSlot) (path : String)
    (bytes bytes2 : Bytes) (fs : String → Except String Bytes) (s : Store)
    (hInv : Inv s) (hfs : fs path = .ok bytes2) :
    (set_data (set_open_path slot path s).1 bytes
        (set_open_path slot path s).2).1 =
      .ok (set_open_path slot path s).2.nextDataId ∧
    (set_open_path slot path s).2.nextDataId ≠ 0 ∧
    ((set_data (set_open_path slot path s).1 bytes
          (set_open_path slot path s).2).2.ui.get_file slot) =
      { path_id := (set_open_path slot path s).1
        data_id := (set_open_path slot path s).2.nextDataId
        file_path := some path
        is_compressed := isLz4Path path
        data := some bytes
        session := none } ∧
    ((set_data (set_open_path slot path s).1 bytes
          (set_open_path slot path s).2).2.ui.get_file slot).status =
      (if isLz4Path path then .Compressed else .Uncompressed) ∧
    (load_data fs (set_open_path slot path s).1
        (set_open_path slot path s).2).1 =
      .ok (set_open_path slot path s).2.nextDataId ∧
    ((load_data fs (set_open_path slot path s).1
          (set_open_path slot path s).2).2.ui.get_file slot) =
      { path_id := (set_open_path slot path s).1
        data_id := (set_open_path slot path s).2.nextDataId
        file_path := some path
        is_compressed := isLz4Path path
        data := some bytes2
        session := none } ∧
    ((load_data fs (set_open_path slot path s).1
          (set_open_path slot path s).2).2.ui.get_file slot).status =
      (if isLz4Path path then .Compressed else .Uncompressed) := by
  obtain ⟨h1, h2, h3, h4, h5, h6⟩ := hInv
  have hcne : s.ui.current_file.path_id ≠ s.nextPathId := Nat.ne_of_lt h1
  have hdne : s.nextDataId ≠ 0 := by omega
  cases slot <;>
    cases hlz : isLz4Path path <;>
      simp [set_open_path, allocPathId, set_data, load_data,
        UiState.get_file_for_path_id, UiState.set_file, UiState.get_file,
        allocDataId, FileState.default, hfs, hcne, hdne, hlz,
        FileState.status, FileState.to_info]

theorem open_path_then_data_status_witness :
    Inv initialStore ∧
    ((fun _ => (.ok [2] : Except String Bytes)) "p/sessionstore.jsonlz4" =
      .ok [2]) ∧
    ((set_data (set_open_path .New "p/sessionstore.jsonlz4" initialStore).1 [1]
        (set_open_path .New "p/sessionstore.jsonlz4" initialStore).2).1 =
      .ok (set_open_path .New "p/sessionstore.jsonlz4" initialStore).2.nextDataId ∧
    (set_open_path .New "p/sessionstore.jsonlz4" initialStore).2.nextDataId ≠ 0 ∧
    ((set_data (set_open_path .New "p/sessionstore.jsonlz4" initialStore).1 [1]
          (set_open_path .New "p/sessionstore.jsonlz4" initialStore).2).2.ui.get_file
        .New) =
      { path_id := (set_open_path .New "p/sessionstore.jsonlz4" initialStore).1
        data_id :=
          (set_open_path .New "p/sessionstore.jsonlz4" initialStore).2.nextDataId
        file_path := some "p/sessionstore.jsonlz4"
        is_compressed := isLz4Path "p/sessionstore.jsonlz4"
        data := some [1]
        session := none } ∧
    ((set_data (set_open_path .New "p/sessionstore.jsonlz4" initialStore).1 [1]
          (set_open_path .New "p/sessionstore.jsonlz4" initialStore).2).2.ui.get_file
        .New).status =
      (if isLz4Path "p/sessionstore.jsonlz4" then .Compressed
        else .Uncompressed) ∧
    (load_data (fun _ => .ok [2])
        (set_open_path .New "p/sessionstore.jsonlz4" initialStore).1
        (set_open_path .New "p/sessionstore.jsonlz4" initialStore).2).1 =
      .ok (set_open_path .New "p/sessionstore.jsonlz4" initialStore).2.nextDataId ∧
    ((load_data (fun _ => .ok [2])
          (set_open_path .New "p/sessionstore.jsonlz4" initialStore).1
          (set_open_path .New "p/sessionstore.jsonlz4" initialStore).2).2.ui.get_file
        .New) =
      { path_id := (set_open_path .New "p/sessionstore.jsonlz4" initialStore).1
        data_id :=
          (set_open_path .New "p/sessionstore.jsonlz4" initialStore).2.nextDataId
        file_path := some "p/sessionstore.jsonlz4"
        is_compressed := isLz4Path "p/sessionstore.jsonlz4"
        data := some [2]
        session := none } ∧
    ((load_data (fun _ => .ok [2])
          (set_open_path .New "p/sessionstore.jsonlz4" initialStore).1
          (set_open_path .New "p/sessionstore.jsonlz4" initialStore).2).2.ui.get_file
        .New).status =
      (if isLz4Path "p/sessionstore.jsonlz4" then .Compressed
        else .Uncompressed)) :=
  ⟨by decide, rfl,
    open_path_then_data_status .New "p/sessionstore.jsonlz4" [1] [2]
      (fun _ => .ok [2]) initialStore (by decide) rfl⟩

lemma enumFrom_map_snd {α : Type} (n : Nat) (l : List α) :
    (l.enumFrom n).map Prod.snd = l := by
  induction l generalizing n with
  | nil => rfl
  | cons a t ih => simp [List.enumFrom, ih]

lemma fst_lt_of_mem_enumFrom {α : Type} (l : List α) :
    ∀ {n : Nat} {p : Nat × α}, p ∈ l.enumFrom n → p.1 < n + l.length := by
  induction l with
  | nil =>
    intro n p h
    cases h
  | cons a t ih =>
    intro n p h
    rw [List.enumFrom] at h
    rcases List.mem_cons.mp h with h | h
    · subst h
      simp
    · have := ih h
      simp only [List.length_cons]
      omega

lemma filter_congr_on_mem {α : Type} {p q : α → Bool} (l : List α)
    (h : ∀ a ∈ l, p a = q a) : l.filter p = l.filter q := by
  induction l with
  | nil => rfl
  | cons a t ih =>
    have ha := h a (List.mem_cons_self a t)
    have ht := ih fun x hx => h x (List.mem_cons_of_mem a hx)
    simp only [List.filter_cons, ha, ht]

lemma filterGroups_eq_spec {α : Type} (idxs : Option (List Nat)) (gs : List α)
    (h : gs.length ≤ 2 ^ 32) :
    filterGroupsByIndexes idxs gs = specSelectedGroups idxs gs := by
  cases idxs with
  | none =>
    simp only [filterGroupsByIndexes, specSelectedGroups, List.enum,
      List.filter_true]
    exact enumFrom_map_snd 0 gs
  | some l =>
    unfold filterGroupsByIndexes specSelectedGroups
    congr 1
    apply filter_congr_on_mem
    intro p hp
    have hlt : p.1 < 0 + gs.length :=
      fst_lt_of_mem_enumFrom gs (by rw [List.enum] at hp; exact hp)
    have hmod : p.1 % 4294967296 = p.1 := Nat.mod_eq_of_lt (by omega)
    simp [hmod]

/-- C9: for every session (represented by the open/closed group lists the
external enumerator yields, of any element type, within the `u32` index
range) and every pair of optional index sets, the group sequence
`to_text_links` — and identically `save_links` — hands to the link renderer
is exactly: the open groups whose enumeration index is in the open set
(all of them when the set is absent), followed by the closed groups whose
enumeration index is in the closed set (all of them when absent) — open
groups always first. -/
theorem link_group_selection (α : Type) (openGroups closedGroups : List α)
    (opts : GenerateOptions)
    (hopen : openGroups.length ≤ 2 ^ 32)
    (hclosed : closedGroups.length ≤ 2 ^ 32) :
    to_text_links_groups openGroups closedGroups opts =
      specSelectedGroups opts.open_group_indexes openGroups ++
        specSelectedGroups opts.closed_group_indexes closedGroups ∧
    save_links_groups openGroups closedGroups opts =
      specSelectedGroups opts.open_group_indexes openGroups ++
        specSelectedGroups opts.closed_group_indexes closedGroups := by
  unfold to_text_links_groups save_links_groups
  rw [filterGroups_eq_spec opts.open_group_indexes openGroups hopen,
    filterGroups_eq_spec opts.closed_group_indexes closedGroups hclosed]
  exact ⟨rfl, rfl⟩

/-- Options selecting open groups 0 and 2 and all closed groups. -/
def exOptions : GenerateOptions :=
  { open_group_indexes := some [0, 2]
    closed_group_indexes := none
    sort_groups := true
    table_of_content := true
    tree_style_tab_trees := true
    sidebery_trees := true }

theorem link_group_selection_witness :
    [10, 20, 30].length ≤ 2 ^ 32 ∧ [40].length ≤ 2 ^ 32 ∧
    (to_text_links_groups [10, 20, 30] [40] exOptions =
        specSelectedGroups exOptions.open_group_indexes [10, 20, 30] ++
          specSelectedGroups exOptions.closed_group_indexes [40] ∧
      save_links_groups [10, 20, 30] [40] exOptions =
        specSelectedGroups exOptions.open_group_indexes [10, 20, 30] ++
          specSelectedGroups exOptions.closed_group_indexes [40]) :=
  ⟨by decide, by decide,
    link_group_selection Nat [10, 20, 30] [40] exOptions (by decide) (by decide)⟩

/-- C10: in every store state reachable from the start state by any
sequence of the command operations, a non-null path identifier is never
held by both records at once, and likewise for data identifiers — so a
lookup by a non-null identifier matches at most one record. -/
theorem reachable_non_null_ids_unique (s : Store) (h : Reachable s) :
    (s.ui.current_file.path_id = 0 ∨
      s.ui.current_file.path_id ≠ s.ui.new_file.path_id) ∧
    (s.ui.current_file.data_id = 0 ∨
      s.ui.current_file.data_id ≠ s.ui.new_file.data_id) := by
  have hInv := inv_of_reachable s h
  exact ⟨hInv.2.2.2.2.1, hInv.2.2.2.2.2⟩

theorem reachable_non_null_ids_unique_witness :
    ((commit_new_file
        (set_open_path .New "x.jsonlz4" initialStore).2).ui.current_file.path_id
          = 0 ∨
      (commit_new_file
        (set_open_path .New "x.jsonlz4" initialStore).2).ui.current_file.path_id
        ≠ (commit_new_file
            (set_open_path .New "x.jsonlz4" initialStore).2).ui.new_file.path_id) ∧
    ((commit_new_file
        (set_open_path .New "x.jsonlz4" initialStore).2).ui.current_file.data_id
          = 0 ∨
      (commit_new_file
        (set_open_path .New "x.jsonlz4" initialStore).2).ui.current_file.data_id
        ≠ (commit_new_file
            (set_open_path .New "x.jsonlz4" initialStore).2).ui.new_file.data_id) :=
  reachable_non_null_ids_unique _
    (Reachable.commit_new_file_step
      (Reachable.set_open_path_step .New "x.jsonlz4" Reachable.init))

end FirefoxSessionUi
